import Mathlib

/-!
# Verification of the `bokeh.transform` helper module

A shallow embedding of `src/bokeh/transform.py`.  The module defines seven
helper functions (`dodge`, `factor_cmap`, `jitter`, `linear_cmap`, `log_cmap`,
`stack`, `transform`), each of which constructs a transform or expression
object and wraps it, together with a column name, into a "DataSpec" dict.

Python values appearing as helper arguments are embedded as the inductive
type `Obj`; Python dicts returned by the helpers are embedded as association
lists `List (String × Obj)` so that key/shape properties are real statements.

The transform/mapper constructors (`Dodge`, `Jitter`, `CategoricalColorMapper`,
`LinearColorMapper`, `LogColorMapper`, `Stack`) and the dict builders `field`
and `expr` live in other bokeh modules that are not part of this source tree;
they are modelled from the spec where so noted.
-/

namespace BokehTransform

/-- Embedding of the Python values flowing through `bokeh.transform`:
`None`, numbers, strings, sequences, and the transform / mapper / expression
objects built by the external constructors.  Each constructor variant stores
its keyword arguments in the order they are passed at the call sites in
`src/bokeh/transform.py`; the constructors themselves are modelled from the
spec ("construct the corresponding transform object with those parameters")
as pure record constructors. -/
inductive Obj : Type where
  | pynone : Obj
  | pyint : Int → Obj
  | pystr : String → Obj
  | pylist : List Obj → Obj
  | Dodge (value range : Obj) : Obj
  | Jitter (mean width distribution range : Obj) : Obj
  | CategoricalColorMapper (palette factors start end_ nan_color : Obj) : Obj
  | LinearColorMapper (palette low high nan_color low_color high_color : Obj) : Obj
  | LogColorMapper (palette low high nan_color low_color high_color : Obj) : Obj
  | Stack (fields : List Obj) : Obj

/-- A Python dict with string keys, embedded as an association list. -/
abbrev Dict := List (String × Obj)

/-- Discriminator: is this object a `Jitter` transform? -/
def Obj.isJitter : Obj → Bool
  | .Jitter _ _ _ _ => true
  | _ => false

/-- Modelled from the spec: the helper `field` (imported from
`bokeh.core.properties`, not part of this source tree) associates a transform
with a column name, producing the DataSpec mapping
`\x7b "field": <column name string>, "transform": <transform object> \x7d`. -/
def field (name : String) (transform : Obj) : Dict :=
  [("field", Obj.pystr name), ("transform", transform)]

/-- Modelled from the spec: the helper `expr` (imported from
`bokeh.core.properties`, not part of this source tree) wraps an expression
object into the expression-based DataSpec variant
`\x7b "expr": <expression object> \x7d`. -/
def expr (e : Obj) : Dict :=
  [("expr", e)]

/-- `dodge(field_name, value, range=None)` from `src/bokeh/transform.py`:
`return field(field_name, Dodge(value=value, range=range))`.
The Python default `range=None` is `Obj.pynone` here. -/
def dodge (field_name : String) (value range : Obj) : Dict :=
  field field_name (Obj.Dodge value range)

/-- `factor_cmap(field_name, palette, factors, start=0, end=None,
nan_color="gray")` from `src/bokeh/transform.py`:
`return field(field_name, CategoricalColorMapper(palette=palette,
factors=factors, start=start, end=end, nan_color=nan_color))`.
The Python defaults are `Obj.pyint 0`, `Obj.pynone`, `Obj.pystr "gray"`. -/
def factor_cmap (field_name : String) (palette factors start end_ nan_color : Obj) :
    Dict :=
  field field_name (Obj.CategoricalColorMapper palette factors start end_ nan_color)

/-- `jitter(field_name, width, mean=0, distribution="uniform", range=None)`
from `src/bokeh/transform.py`:
`return field(field_name, Jitter(mean=mean, width=width,
distribution=distribution, range=range))`.
The Python defaults are `Obj.pyint 0`, `Obj.pystr "uniform"`, `Obj.pynone`. -/
def jitter (field_name : String) (width mean distribution range : Obj) : Dict :=
  field field_name (Obj.Jitter mean width distribution range)

/-- `linear_cmap(field_name, palette, low, high, low_color=None,
high_color=None, nan_color="gray")` from `src/bokeh/transform.py`:
`return field(field_name, LinearColorMapper(palette=palette, low=low,
high=high, nan_color=nan_color, low_color=low_color, high_color=high_color))`.
The Python defaults are `Obj.pynone`, `Obj.pynone`, `Obj.pystr "gray"`. -/
def linear_cmap (field_name : String) (palette low high low_color high_color nan_color : Obj) :
    Dict :=
  field field_name (Obj.LinearColorMapper palette low high nan_color low_color high_color)

/-- `log_cmap(field_name, palette, low, high, low_color=None, high_color=None,
nan_color="gray")` from `src/bokeh/transform.py`:
`return field(field_name, LogColorMapper(palette=palette, low=low, high=high,
nan_color=nan_color, low_color=low_color, high_color=high_color))`.
The Python defaults are `Obj.pynone`, `Obj.pynone`, `Obj.pystr "gray"`. -/
def log_cmap (field_name : String) (palette low high low_color high_color nan_color : Obj) :
    Dict :=
  field field_name (Obj.LogColorMapper palette low high nan_color low_color high_color)

/-- `stack(*fields)` from `src/bokeh/transform.py`:
`return expr(Stack(fields=fields))`.  The varargs tuple is embedded as a
`List Obj`. -/
def stack (fields : List Obj) : Dict :=
  expr (Obj.Stack fields)

/-- `transform(field_name, transform)` from `src/bokeh/transform.py`:
`return field(field_name, transform)`. -/
def transform (field_name : String) (t : Obj) : Dict :=
  field field_name t

/-- Modelled from the spec: the `Dodge` constructor (from
`bokeh.models.transforms`, not part of this source tree) performs its own
validation and may reject its arguments.  `dodgeX` is `dodge` with that
constructor abstract and fallible; a rejection propagates out of the helper
unchanged, exactly as a Python exception raised inside
`field(field_name, Dodge(value=value, range=range))` would. -/
def dodgeX (mk : Obj → Obj → Except Obj Obj) (field_name : String)
    (value range : Obj) : Except Obj Dict :=
  match mk value range with
  | Except.error e => Except.error e
  | Except.ok t => Except.ok (field field_name t)

/-- Modelled from the spec: `factor_cmap` with the external
`CategoricalColorMapper` constructor abstract and fallible. -/
def factor_cmapX (mk : Obj → Obj → Obj → Obj → Obj → Except Obj Obj)
    (field_name : String) (palette factors start end_ nan_color : Obj) :
    Except Obj Dict :=
  match mk palette factors start end_ nan_color with
  | Except.error e => Except.error e
  | Except.ok t => Except.ok (field field_name t)

/-- Modelled from the spec: `jitter` with the external `Jitter` constructor
abstract and fallible. -/
def jitterX (mk : Obj → Obj → Obj → Obj → Except Obj Obj)
    (field_name : String) (width mean distribution range : Obj) :
    Except Obj Dict :=
  match mk mean width distribution range with
  | Except.error e => Except.error e
  | Except.ok t => Except.ok (field field_name t)

/-- Modelled from the spec: `linear_cmap` with the external
`LinearColorMapper` constructor abstract and fallible. -/
def linear_cmapX (mk : Obj → Obj → Obj → Obj → Obj → Obj → Except Obj Obj)
    (field_name : String) (palette low high low_color high_color nan_color : Obj) :
    Except Obj Dict :=
  match mk palette low high nan_color low_color high_color with
  | Except.error e => Except.error e
  | Except.ok t => Except.ok (field field_name t)

/-- Modelled from the spec: `log_cmap` with the external `LogColorMapper`
constructor abstract and fallible. -/
def log_cmapX (mk : Obj → Obj → Obj → Obj → Obj → Obj → Except Obj Obj)
    (field_name : String) (palette low high low_color high_color nan_color : Obj) :
    Except Obj Dict :=
  match mk palette low high nan_color low_color high_color with
  | Except.error e => Except.error e
  | Except.ok t => Except.ok (field field_name t)

/-- Modelled from the spec: `stack` with the external `Stack` constructor
abstract and fallible. -/
def stackX (mk : List Obj → Except Obj Obj) (fields : List Obj) :
    Except Obj Dict :=
  match mk fields with
  | Except.error e => Except.error e
  | Except.ok t => Except.ok (expr t)

/-- C1: each helper that takes a field name (`dodge`, `factor_cmap`, `jitter`,
`linear_cmap`, `log_cmap`, `transform`) returns, for every field-name string
and every choice of the other arguments, a mapping whose `"field"` entry is
exactly the input field name. -/
theorem helpers_carry_field_name (fn : String) (a b c d e f t : Obj) :
    List.lookup "field" (dodge fn a b) = some (Obj.pystr fn) ∧
    List.lookup "field" (factor_cmap fn a b c d e) = some (Obj.pystr fn) ∧
    List.lookup "field" (jitter fn a b c d) = some (Obj.pystr fn) ∧
    List.lookup "field" (linear_cmap fn a b c d e f) = some (Obj.pystr fn) ∧
    List.lookup "field" (log_cmap fn a b c d e f) = some (Obj.pystr fn) ∧
    List.lookup "field" (transform fn t) = some (Obj.pystr fn) :=
  ⟨rfl, rfl, rfl, rfl, rfl, rfl⟩

/-- C2: for every sequence of column-name strings (including the empty one),
`stack` returns the expression-based DataSpec variant carrying a `Stack`
expression whose fields are exactly the given columns in the given order. -/
theorem stack_carries_exact_fields (cs : List String) :
    stack (cs.map Obj.pystr) = [("expr", Obj.Stack (cs.map Obj.pystr))] :=
  rfl

/-- C3: `factor_cmap` called with `start`, `end` and `nan_color` left at their
Python defaults (`0`, `None`, `"gray"`) embeds a `CategoricalColorMapper`
carrying the input palette and factors unchanged together with exactly those
default values. -/
theorem factor_cmap_defaults (fn : String) (p fs : Obj) :
    factor_cmap fn p fs (Obj.pyint 0) Obj.pynone (Obj.pystr "gray") =
      [("field", Obj.pystr fn),
        ("transform",
          Obj.CategoricalColorMapper p fs (Obj.pyint 0) Obj.pynone (Obj.pystr "gray"))] :=
  rfl

/-- C4: `linear_cmap` and `log_cmap` called with `low_color`, `high_color` and
`nan_color` left at their Python defaults (`None`, `None`, `"gray"`) embed a
`LinearColorMapper` (resp. `LogColorMapper`) carrying palette, low and high
unchanged, `low_color = None`, `high_color = None` and `nan_color = "gray"`. -/
theorem cmap_defaults (fn : String) (p lo hi : Obj) :
    linear_cmap fn p lo hi Obj.pynone Obj.pynone (Obj.pystr "gray") =
      [("field", Obj.pystr fn),
        ("transform",
          Obj.LinearColorMapper p lo hi (Obj.pystr "gray") Obj.pynone Obj.pynone)] ∧
    log_cmap fn p lo hi Obj.pynone Obj.pynone (Obj.pystr "gray") =
      [("field", Obj.pystr fn),
        ("transform",
          Obj.LogColorMapper p lo hi (Obj.pystr "gray") Obj.pynone Obj.pynone)] :=
  ⟨rfl, rfl⟩

/-- C5: `jitter` called with `mean`, `distribution` and `range` left at their
Python defaults (`0`, `"uniform"`, `None`) embeds a `Jitter` transform whose
width equals the input and which carries exactly those default values. -/
theorem jitter_defaults (fn : String) (w : Obj) :
    jitter fn w (Obj.pyint 0) (Obj.pystr "uniform") Obj.pynone =
      [("field", Obj.pystr fn),
        ("transform", Obj.Jitter (Obj.pyint 0) w (Obj.pystr "uniform") Obj.pynone)] :=
  rfl

/-- C6: `dodge` called with `range` left at its Python default (`None`) embeds
an additive-offset `Dodge` transform — not a `Jitter` — whose value equals the
input value and whose range is `None`. -/
theorem dodge_is_additive_offset (fn : String) (v : Obj) :
    List.lookup "transform" (dodge fn v Obj.pynone) = some (Obj.Dodge v Obj.pynone) ∧
    Obj.isJitter (Obj.Dodge v Obj.pynone) = false :=
  ⟨rfl, rfl⟩

/-- C7: every helper returns a mapping with exactly the keys `"field"` and
`"transform"` (in that shape), except `stack`, whose result has exactly the
single key `"expr"`; the exact dict each helper produces is pinned down. -/
theorem dataspec_shape (fn : String) (a b c d e f t : Obj) (cs : List Obj) :
    dodge fn a b = [("field", Obj.pystr fn), ("transform", Obj.Dodge a b)] ∧
    factor_cmap fn a b c d e =
      [("field", Obj.pystr fn), ("transform", Obj.CategoricalColorMapper a b c d e)] ∧
    jitter fn a b c d =
      [("field", Obj.pystr fn), ("transform", Obj.Jitter b a c d)] ∧
    linear_cmap fn a b c d e f =
      [("field", Obj.pystr fn), ("transform", Obj.LinearColorMapper a b c f d e)] ∧
    log_cmap fn a b c d e f =
      [("field", Obj.pystr fn), ("transform", Obj.LogColorMapper a b c f d e)] ∧
    transform fn t = [("field", Obj.pystr fn), ("transform", t)] ∧
    stack cs = [("expr", Obj.Stack cs)] :=
  ⟨rfl, rfl, rfl, rfl, rfl, rfl, rfl⟩

/-- C8: every helper is deterministic: two calls to the same helper with equal
arguments return equal mappings.  (Side-effect freedom holds by construction
of the embedding: each helper is a pure function of its arguments, mirroring
the source, which only calls constructors and returns.) -/
theorem helpers_deterministic (fn fn' : String) (a a' b b' c c' d d' e e' f f' : Obj)
    (cs cs' : List Obj) (hfn : fn = fn') (ha : a = a') (hb : b = b') (hc : c = c')
    (hd : d = d') (he : e = e') (hf : f = f') (hcs : cs = cs') :
    dodge fn a b = dodge fn' a' b' ∧
    factor_cmap fn a b c d e = factor_cmap fn' a' b' c' d' e' ∧
    jitter fn a b c d = jitter fn' a' b' c' d' ∧
    linear_cmap fn a b c d e f = linear_cmap fn' a' b' c' d' e' f' ∧
    log_cmap fn a b c d e f = log_cmap fn' a' b' c' d' e' f' ∧
    stack cs = stack cs' ∧
    transform fn a = transform fn' a' := by
  subst hfn ha hb hc hd he hf hcs
  exact ⟨rfl, rfl, rfl, rfl, rfl, rfl, rfl⟩

/-- C8 witness: the determinism theorem applied at concrete arguments. -/
theorem helpers_deterministic_witness :
    dodge "x" Obj.pynone Obj.pynone = dodge "x" Obj.pynone Obj.pynone ∧
    factor_cmap "x" Obj.pynone Obj.pynone Obj.pynone Obj.pynone Obj.pynone =
      factor_cmap "x" Obj.pynone Obj.pynone Obj.pynone Obj.pynone Obj.pynone ∧
    jitter "x" Obj.pynone Obj.pynone Obj.pynone Obj.pynone =
      jitter "x" Obj.pynone Obj.pynone Obj.pynone Obj.pynone ∧
    linear_cmap "x" Obj.pynone Obj.pynone Obj.pynone Obj.pynone Obj.pynone Obj.pynone =
      linear_cmap "x" Obj.pynone Obj.pynone Obj.pynone Obj.pynone Obj.pynone Obj.pynone ∧
    log_cmap "x" Obj.pynone Obj.pynone Obj.pynone Obj.pynone Obj.pynone Obj.pynone =
      log_cmap "x" Obj.pynone Obj.pynone Obj.pynone Obj.pynone Obj.pynone Obj.pynone ∧
    stack [] = stack [] ∧
    transform "x" Obj.pynone = transform "x" Obj.pynone :=
  helpers_deterministic "x" "x" Obj.pynone Obj.pynone Obj.pynone Obj.pynone
    Obj.pynone Obj.pynone Obj.pynone Obj.pynone Obj.pynone Obj.pynone
    Obj.pynone Obj.pynone [] [] rfl rfl rfl rfl rfl rfl rfl rfl

/-- C9: no helper adds its own validation or error handling: with each
external constructor abstract and fallible, a helper call returns an error
exactly when the constructor rejects its arguments, the error untouched; when
the constructor succeeds, the helper wraps the constructed object via `field`
(resp. `expr`) and nothing else.  `transform` calls no constructor and never
fails. -/
theorem helpers_delegate_errors
    (mkD : Obj → Obj → Except Obj Obj)
    (mkC : Obj → Obj → Obj → Obj → Obj → Except Obj Obj)
    (mkJ : Obj → Obj → Obj → Obj → Except Obj Obj)
    (mkLin mkLog : Obj → Obj → Obj → Obj → Obj → Obj → Except Obj Obj)
    (mkS : List Obj → Except Obj Obj)
    (fn : String) (a b c d e f : Obj) (cs : List Obj) :
    ((∀ err, dodgeX mkD fn a b = Except.error err ↔ mkD a b = Except.error err) ∧
      ∀ t, mkD a b = Except.ok t → dodgeX mkD fn a b = Except.ok (field fn t)) ∧
    ((∀ err,
        factor_cmapX mkC fn a b c d e = Except.error err ↔
          mkC a b c d e = Except.error err) ∧
      ∀ t, mkC a b c d e = Except.ok t →
        factor_cmapX mkC fn a b c d e = Except.ok (field fn t)) ∧
    ((∀ err,
        jitterX mkJ fn a b c d = Except.error err ↔ mkJ b a c d = Except.error err) ∧
      ∀ t, mkJ b a c d = Except.ok t →
        jitterX mkJ fn a b c d = Except.ok (field fn t)) ∧
    ((∀ err,
        linear_cmapX mkLin fn a b c d e f = Except.error err ↔
          mkLin a b c f d e = Except.error err) ∧
      ∀ t, mkLin a b c f d e = Except.ok t →
        linear_cmapX mkLin fn a b c d e f = Except.ok (field fn t)) ∧
    ((∀ err,
        log_cmapX mkLog fn a b c d e f = Except.error err ↔
          mkLog a b c f d e = Except.error err) ∧
      ∀ t, mkLog a b c f d e = Except.ok t →
        log_cmapX mkLog fn a b c d e f = Except.ok (field fn t)) ∧
    ((∀ err, stackX mkS cs = Except.error err ↔ mkS cs = Except.error err) ∧
      ∀ t, mkS cs = Except.ok t → stackX mkS cs = Except.ok (expr t)) ∧
    transform fn a = field fn a := by
  refine ⟨⟨fun err => ?_, fun t ht => ?_⟩, ⟨fun err => ?_, fun t ht => ?_⟩,
    ⟨fun err => ?_, fun t ht => ?_⟩, ⟨fun err => ?_, fun t ht => ?_⟩,
    ⟨fun err => ?_, fun t ht => ?_⟩, ⟨fun err => ?_, fun t ht => ?_⟩, rfl⟩
  · cases h : mkD a b <;> simp [dodgeX, h]
  · simp [dodgeX, ht]
  · cases h : mkC a b c d e <;> simp [factor_cmapX, h]
  · simp [factor_cmapX, ht]
  · cases h : mkJ b a c d <;> simp [jitterX, h]
  · simp [jitterX, ht]
  · cases h : mkLin a b c f d e <;> simp [linear_cmapX, h]
  · simp [linear_cmapX, ht]
  · cases h : mkLog a b c f d e <;> simp [log_cmapX, h]
  · simp [log_cmapX, ht]
  · cases h : mkS cs <;> simp [stackX, h]
  · simp [stackX, ht]

/-- C9 witness: the delegation theorem applied at a concrete succeeding
constructor and concrete arguments. -/
theorem helpers_delegate_errors_witness :
    dodgeX (fun v r => Except.ok (Obj.Dodge v r)) "x" Obj.pynone Obj.pynone =
      Except.ok (field "x" (Obj.Dodge Obj.pynone Obj.pynone)) :=
  (helpers_delegate_errors (fun v r => Except.ok (Obj.Dodge v r))
      (fun p fs s en n => Except.ok (Obj.CategoricalColorMapper p fs s en n))
      (fun m w di r => Except.ok (Obj.Jitter m w di r))
      (fun p lo hi n lc hc => Except.ok (Obj.LinearColorMapper p lo hi n lc hc))
      (fun p lo hi n lc hc => Except.ok (Obj.LogColorMapper p lo hi n lc hc))
      (fun fs => Except.ok (Obj.Stack fs))
      "x" Obj.pynone Obj.pynone Obj.pynone Obj.pynone Obj.pynone Obj.pynone []).1.2
    (Obj.Dodge Obj.pynone Obj.pynone) rfl

/-- C10: for every field name and every object `t` (including `None`),
`transform` embeds `t` itself in the returned mapping: the `"transform"`
entry of the result is exactly the argument `t`. -/
theorem transform_embeds_argument (fn : String) (t : Obj) :
    List.lookup "transform" (transform fn t) = some t ∧
    List.lookup "transform" (transform fn Obj.pynone) = some Obj.pynone :=
  ⟨rfl, rfl⟩

end BokehTransform
